import Mathlib

/-!
Shallow embedding of the observability demo repository
(`api-gateway/app.py`, `order-service/app.py`, `user-service/app.py`).

Pure fragments of the Python code are translated into executable Lean
functions; the mutable module-level state of the order service
(`orders_db`, `order_id_counter`, the business-metric counters) is passed
explicitly as an `OrderState` value.  Outbound HTTP calls made through the
`requests` library are modelled by an explicit outcome value (the status
and body the environment delivers, or the exception class the library
raises), so each handler becomes a function of its request data, the
call outcomes, and the starting state.
-/

namespace Observability

/-- JSON values as they appear in request bodies after the Flask call
`request.get_json()`: integers, strings, or null.  (The claims under
study only exercise these three shapes.) -/
inductive JVal
  | jint (n : Int)
  | jstr (s : String)
  | jnull
  deriving DecidableEq, Repr

/-- Value of a decimal digit character, used to invert `Nat.digitChar`. -/
def undigitChar (c : Char) : Nat := c.toNat - 48

/-- Little-endian base-10 digits of `n`, computed with structural
recursion on a fuel argument (`fuel ≥ n` suffices) so that the function
reduces inside the kernel. -/
def natDigitsAux : Nat → Nat → List Nat
  | _, 0 => []
  | 0, _ + 1 => []
  | fuel + 1, n + 1 => ((n + 1) % 10) :: natDigitsAux fuel ((n + 1) / 10)

/-- Little-endian base-10 digits of `n`. -/
def natDigits (n : Nat) : List Nat := natDigitsAux n n

/-- Models Python `str(n)` for a natural number `n`: the decimal numeral,
rendered from the base-10 digit list (most significant first). -/
def natKey (n : Nat) : String :=
  if n = 0 then "0" else ((natDigits n).reverse.map Nat.digitChar).asString

/-- Auxiliary digit accumulator for `pyIntOfString`, following the Python
`digitpart` grammar `digit (["_"] digit)*`: a single underscore may
separate two digits, never lead, trail, or repeat. -/
def pyDigitsAux : List Char → Nat → Option Nat
  | [], acc => some acc
  | '_' :: c :: rest, acc =>
      if c.isDigit then pyDigitsAux rest (acc * 10 + (c.toNat - 48)) else none
  | ['_'], _ => none
  | c :: rest, acc =>
      if c.isDigit then pyDigitsAux rest (acc * 10 + (c.toNat - 48)) else none

/-- Digit part of a Python integer literal: nonempty, starts with a digit. -/
def pyDigitsCore : List Char → Option Nat
  | [] => none
  | c :: rest => if c.isDigit then pyDigitsAux rest (c.toNat - 48) else none

/-- ASCII whitespace as stripped by Python around integer literals:
space and the control characters tab through carriage return. -/
def pyIsSpace (c : Char) : Bool :=
  c == ' ' || (9 ≤ c.toNat && c.toNat ≤ 13)

/-- Models Python `int(s)` on a string: surrounding whitespace is
stripped, an optional sign precedes a nonempty digit sequence; any other
shape raises `ValueError` (modelled as `none`). -/
def pyIntOfString (s : String) : Option Int :=
  match ((s.toList.dropWhile pyIsSpace).reverse.dropWhile pyIsSpace).reverse with
  | '-' :: rest => (pyDigitsCore rest).map (fun n => -(n : Int))
  | '+' :: rest => (pyDigitsCore rest).map (fun n => (n : Int))
  | cs => (pyDigitsCore cs).map (fun n => (n : Int))

/-- Models Python `int(v)` on a JSON value: an integer is returned as is,
a string goes through the literal parser, anything else raises
`TypeError` (modelled as `none`). -/
def pyInt : JVal → Option Int
  | .jint n => some n
  | .jstr s => pyIntOfString s
  | .jnull => none

/-- Header lists: an HTTP header map is modelled as an association list
from header name to value, looked up with `List.lookup`. -/
abbrev Headers := List (String × String)

/-- Models `response.headers[k] = v`: any existing entry for the name is
replaced and the new value appended. -/
def setRespHeader (hs : Headers) (k v : String) : Headers :=
  hs.filter (fun p => p.1 != k) ++ [(k, v)]

/-- Models `get_correlation_id` (identical in all three services):
`request.headers.get("X-Correlation-ID", str(uuid.uuid4()))`.  The
`freshId` argument stands for the `uuid.uuid4()` value the environment
would produce; it is used only when the header is absent. -/
def get_correlation_id (inbound : Headers) (freshId : String) : String :=
  (inbound.lookup "X-Correlation-ID").getD freshId

/-- Models the outbound header construction
`headers = {"X-Correlation-ID": g.correlation_id}`, identical at the
gateway proxy call site and the user-validation call site of the order
service. -/
def outboundHeaders (cid : String) : Headers := [("X-Correlation-ID", cid)]

/-- Models the tail of `after_request` (identical in all three services):
`response.headers["X-Correlation-ID"] = g.correlation_id`. -/
def after_request_headers (cid : String) (respHeaders : Headers) : Headers :=
  setRespHeader respHeaders "X-Correlation-ID" cid

/-! ### API gateway (`api-gateway/app.py`) -/

namespace Gateway

/-- Response object the `requests` library hands back when the backend
answers: its HTTP status, and the result of `response.json()` — `some v`
when the body parses as JSON (the parsed value is kept abstract as `v`),
`none` when `response.json()` raises a decode error. -/
structure BackendResponse where
  status : Nat
  jsonBody : Option String
  deriving DecidableEq, Repr

/-- Outcome of the single outbound dispatch inside `proxy_request`,
classified by the `except` clause that would catch it:
`requests.exceptions.Timeout`, `requests.exceptions.ConnectionError`,
or any other exception. -/
inductive GCallOutcome
  | ok (r : BackendResponse)
  | timeout
  | connError
  | otherError (msg : String)
  deriving DecidableEq, Repr

/-- Body of the pair `proxy_request` returns: either the parsed JSON value of the backend passed through, or a `jsonify({"error": msg})`
document built by the gateway itself. -/
inductive GBody
  | passthrough (v : String)
  | errMsg (m : String)
  deriving DecidableEq, Repr

/-- Result of `proxy_request`: the `(body, status)` pair returned to
Flask, plus the header maps of the outbound dispatches actually made
(each `requests.get/post/delete` call contributes its `headers`
argument), so that propagation and attempt-counting claims can be
stated. -/
structure ProxyOut where
  body : GBody
  status : Nat
  calls : List Headers
  deriving DecidableEq, Repr

/-- Methods with a dispatch branch in `proxy_request`; any other method
falls to the `else` branch. -/
def methodSupported (m : String) : Bool :=
  m == "GET" || m == "POST" || m == "DELETE"

/-- Models `proxy_request(service_url, path, method, data)`.  `cid` is
`g.correlation_id`; `outcome` is what the environment does with the one
outbound dispatch.  The branch structure mirrors the source: unsupported
methods return 405 before any dispatch; a backend response is returned
as `(response.json(), response.status_code)`, and a JSON decode failure
of the body raised by `response.json()` is caught by the final
`except Exception` clause (it is neither a `Timeout` nor a
`ConnectionError`), yielding the generic 500 result. -/
def proxy_request (cid : String) (method : String) (outcome : GCallOutcome) : ProxyOut :=
  let headers := outboundHeaders cid
  if methodSupported method then
    match outcome with
    | .ok r =>
      match r.jsonBody with
      | some v => ⟨.passthrough v, r.status, [headers]⟩
      | none => ⟨.errMsg "Internal server error", 500, [headers]⟩
    | .timeout => ⟨.errMsg "Service timeout", 504, [headers]⟩
    | .connError => ⟨.errMsg "Service unavailable", 503, [headers]⟩
    | .otherError _ => ⟨.errMsg "Internal server error", 500, [headers]⟩
  else ⟨.errMsg "Method not supported", 405, []⟩

end Gateway

/-! ### Request lifecycle instrumentation (identical in all services) -/

/-- What the route handler body does on a given request: produce a
response with some status, or raise an exception (described by a
message) that escapes to the `@app.errorhandler(Exception)` handler. -/
inductive HandlerOutcome
  | respond (status : Nat)
  | raised (msg : String)
  deriving DecidableEq, Repr

/-- Observable effect of one full request on the instrumentation: the
active-request gauge after handling, how many times it was incremented
and decremented during the request, and the final response status. -/
structure RequestMetricsOut where
  gaugeAfter : Int
  incCount : Nat
  decCount : Nat
  status : Nat
  deriving DecidableEq, Repr

/-- Models one request through the Flask hooks of any of the three
services: `before_request` runs first and executes
`http_requests_active.inc()`; the handler body runs (an exception is
converted to a 500 response by the global `handle_error`); Flask then
finalizes the response through `after_request`, which executes
`http_requests_active.dec()`, on every one of these paths.  `g0` is the
gauge value before the request. -/
def handle_request (g0 : Int) (h : HandlerOutcome) : RequestMetricsOut :=
  let g1 := g0 + 1
  let st := match h with
    | .respond s => s
    | .raised _ => 500
  ⟨g1 - 1, 1, 1, st⟩

/-! ### Order service (`order-service/app.py`) -/

namespace OrderService

/-- Python exception values raised by the order-creation code:
`ValueError` (the failure-injection hook and failed `int()` literal
parses) and `TypeError` (an `int()` argument of unsupported type). -/
inductive PyErr
  | valueError (msg : String)
  | typeError (msg : String)
  deriving DecidableEq, Repr

/-- Exception raised by `int(v)` when the conversion fails. -/
def intConvErr : JVal → PyErr
  | .jstr s => .valueError ("invalid literal for int() with base 10: \x27" ++ s ++ "\x27")
  | _ => .typeError "int() argument must be a string, a bytes-like object or a real number"

/-- An order record as built in `create_order`; `created_at` carries the
`time.time()` value supplied by the environment. -/
structure Order where
  id : String
  user_id : JVal
  product : JVal
  quantity : Int
  total : ℚ
  status : String
  created_at : ℚ
  deriving DecidableEq, Repr

/-- Module-level mutable state of the order service: the `orders_db`
dict (an insertion-ordered association list from id string to order),
the `order_id_counter`, and the two business-metric instruments
(`orders_created_total`, one label increment per created order, and the
accumulated `order_value_total`). -/
structure OrderState where
  order_id_counter : Nat
  orders_db : List (String × Order)
  orders_created_products : List JVal
  order_value : ℚ
  deriving DecidableEq, Repr

/-- Initial module-level state: `orders_db = {}`, `order_id_counter = 1`,
metric counters at zero. -/
def initState : OrderState := ⟨1, [], [], 0⟩

/-- Outcome of the `requests.get` call to the user service inside the
`validate_user` span: a response with some status, or a
`requests.exceptions.RequestException` (any network-level failure). -/
inductive UserCallOutcome
  | ok (status : Nat)
  | netFail (msg : String)
  deriving DecidableEq, Repr

/-- Response body built by an order-service handler: an order document
(`jsonify(order)`), an error document (`jsonify({"error": msg})`), or a
message document (`jsonify({"message": msg})`). -/
inductive OrderBody
  | order (o : Order)
  | errMsg (m : String)
  | msg (m : String)
  deriving DecidableEq, Repr

deriving instance DecidableEq for Except

/-- Everything observable about one `create_order` run: the returned
`(body, status)` pair or the exception that escaped, the module state
afterwards, the spans entered in order, and the header maps of the
outbound calls made. -/
structure CreateOrderOut where
  result : Except PyErr (OrderBody × Nat)
  state : OrderState
  steps : List String
  calls : List Headers
  deriving DecidableEq, Repr

/-- Unit price used in the `calculate_total` span. -/
def price_per_item : ℚ := 99.99

/-- Models the `create_order` handler.  `cid` is `g.correlation_id`,
`body` is `request.get_json()` (`none` when no JSON body is present),
`userCall` is what the environment does with the outbound user-service
call, `now` is `time.time()`, and `s` is the module state at entry.

The field-presence test in the source is
`if not data or "user_id" not in data or ...`; an empty dict is falsy,
and an empty dict also has none of the three keys, so the test is
equivalent to the three lookups below failing.  `int(data["quantity"])`
raising propagates out of the handler (no local `except` covers it), as
does the `ValueError` of the `fail_product` failure-injection hook; both
leave the module state untouched because they occur before the
`save_order` block. -/
def create_order (cid : String) (body : Option (List (String × JVal)))
    (userCall : UserCallOutcome) (now : ℚ) (s : OrderState) : CreateOrderOut :=
  match body with
  | none => ⟨.ok (.errMsg "Missing required fields: user_id, product, quantity", 400),
      s, ["create_order"], []⟩
  | some data =>
    match data.lookup "user_id", data.lookup "product", data.lookup "quantity" with
    | some uid, some prod, some qv =>
      match pyInt qv with
      | none => ⟨.error (intConvErr qv), s, ["create_order"], []⟩
      | some q =>
        let sent := outboundHeaders cid
        match userCall with
        | .netFail _ =>
          ⟨.ok (.errMsg "Service unavailable", 503), s,
            ["create_order", "validate_user"], [sent]⟩
        | .ok st =>
          if st = 404 then
            ⟨.ok (.errMsg "User not found", 404), s,
              ["create_order", "validate_user"], [sent]⟩
          else if st ≠ 200 then
            ⟨.ok (.errMsg "Failed to validate user", 500), s,
              ["create_order", "validate_user"], [sent]⟩
          else if prod = .jstr "fail_product" then
            ⟨.error (.valueError "Payment gateway timeout: Unable to reach provider"), s,
              ["create_order", "validate_user", "calculate_total"], [sent]⟩
          else
            let total : ℚ := price_per_item * (q : ℚ)
            let oid := natKey s.order_id_counter
            let o : Order := ⟨oid, uid, prod, q, total, "pending", now⟩
            let s2 : OrderState :=
              ⟨s.order_id_counter + 1,
               s.orders_db ++ [(oid, o)],
               s.orders_created_products ++ [prod],
               s.order_value + total⟩
            ⟨.ok (.order o, 201), s2,
              ["create_order", "validate_user", "calculate_total", "save_order"], [sent]⟩
    | _, _, _ =>
      ⟨.ok (.errMsg "Missing required fields: user_id, product, quantity", 400),
        s, ["create_order"], []⟩

/-- Models the `delete_order` handler: pop the id from `orders_db` or
report not-found. -/
def delete_order (oid : String) (s : OrderState) : (OrderBody × Nat) × OrderState :=
  match s.orders_db.lookup oid with
  | none => ((.errMsg "Order not found", 404), s)
  | some _ => ((.msg "Order deleted", 200),
      { s with orders_db := s.orders_db.filter (fun p => p.1 != oid) })

/-- Log record emitted by the global error handler. -/
structure ErrorLog where
  level : Nat
  message : String
  errVal : String
  errType : String
  deriving DecidableEq, Repr

/-- Message carried by a Python exception value. -/
def pyErrMsg : PyErr → String
  | .valueError m => m
  | .typeError m => m

/-- Python type name of an exception value, as `type(error).__name__`. -/
def pyErrType : PyErr → String
  | .valueError _ => "ValueError"
  | .typeError _ => "TypeError"

/-- Models the `@app.errorhandler(Exception)` handler `handle_error`:
logs "Unhandled exception" at `logging.ERROR` (= 40) with the message
and type of the error, and returns the generic
`({"error": "Internal server error"}, 500)` response. -/
def handle_error (e : PyErr) : (OrderBody × Nat) × ErrorLog :=
  ((.errMsg "Internal server error", 500),
   ⟨40, "Unhandled exception", pyErrMsg e, pyErrType e⟩)

/-- Store invariant of the order service: the counter is positive (it
starts at 1 and is only incremented), and every key in `orders_db` is
the decimal rendering of a past counter value — positive and strictly
below the current counter.  It holds in `initState`, is preserved by
every handler, and makes the next id fresh. -/
def StoreInv (s : OrderState) : Prop :=
  0 < s.order_id_counter ∧
    ∀ p ∈ s.orders_db, ∃ k, 0 < k ∧ k < s.order_id_counter ∧ p.1 = natKey k

end OrderService

section LookupLemmas

variable {β : Type}

theorem lookup_eq_none_of_keys {l : List (String × β)} {k : String}
    (h : ∀ p ∈ l, p.1 ≠ k) : l.lookup k = none := by
  induction l with
  | nil => rfl
  | cons a t ih =>
    have ha : a.1 ≠ k := h a (List.mem_cons_self a t)
    have ht : ∀ p ∈ t, p.1 ≠ k := fun p hp => h p (List.mem_cons_of_mem a hp)
    cases a with
    | mk a1 b1 =>
      simp only [List.lookup]
      have : (k == a1) = false := by
        simp only [beq_eq_false_iff_ne]
        exact fun hk => ha (by simpa using hk.symm)
      rw [this]
      exact ih ht

theorem lookup_append_of_none {l1 l2 : List (String × β)} {k : String}
    (h : l1.lookup k = none) : (l1 ++ l2).lookup k = l2.lookup k := by
  induction l1 with
  | nil => rfl
  | cons a t ih =>
    cases a with
    | mk a1 b1 =>
      simp only [List.lookup, List.cons_append] at h ⊢
      cases hk : (k == a1) with
      | true => rw [hk] at h; exact absurd h (by simp)
      | false => rw [hk] at h; exact ih h

theorem lookup_singleton_self (k : String) (v : β) :
    List.lookup k [(k, v)] = some v := by
  simp [List.lookup]

theorem lookup_setRespHeader (hs : Headers) (k v : String) :
    (setRespHeader hs k v).lookup k = some v := by
  unfold setRespHeader
  rw [lookup_append_of_none, lookup_singleton_self]
  apply lookup_eq_none_of_keys
  intro p hp
  have := List.of_mem_filter hp
  simpa using this

end LookupLemmas

section NatKey

theorem undigit_digitChar_fin : ∀ d : Fin 10, undigitChar (Nat.digitChar d.val) = d.val := by
  decide

theorem natDigitsAux_eq_digits (fuel n : Nat) (h : n ≤ fuel) :
    natDigitsAux fuel n = Nat.digits 10 n := by
  induction fuel generalizing n with
  | zero =>
    have : n = 0 := by omega
    subst this
    simp [natDigitsAux]
  | succ f ih =>
    cases n with
    | zero => simp [natDigitsAux]
    | succ m =>
      rw [natDigitsAux, ih ((m + 1) / 10) (by omega),
        Nat.digits_of_two_le_of_pos (by norm_num) (Nat.succ_pos m)]

theorem natDigits_eq_digits (n : Nat) : natDigits n = Nat.digits 10 n :=
  natDigitsAux_eq_digits n n (Nat.le_refl n)

theorem natKey_inj {n m : Nat} (hn : 0 < n) (hm : 0 < m)
    (h : natKey n = natKey m) : n = m := by
  unfold natKey at h
  rw [if_neg (Nat.pos_iff_ne_zero.mp hn), if_neg (Nat.pos_iff_ne_zero.mp hm),
    natDigits_eq_digits, natDigits_eq_digits] at h
  have hdata := congrArg String.data h
  simp only [List.asString] at hdata
  have hmap : ((Nat.digits 10 n).reverse.map Nat.digitChar)
      = ((Nat.digits 10 m).reverse.map Nat.digitChar) := hdata
  have hround : ∀ l : List Nat, (∀ d ∈ l, d < 10) →
      (l.map Nat.digitChar).map undigitChar = l := by
    intro l hl
    rw [List.map_map]
    have : l.map (undigitChar ∘ Nat.digitChar) = l.map id := by
      apply List.map_congr_left
      intro d hd
      exact undigit_digitChar_fin ⟨d, hl d hd⟩
    simpa using this
  have hlt : ∀ d ∈ (Nat.digits 10 n).reverse, d < 10 := by
    intro d hd
    exact Nat.digits_lt_base (by norm_num) (List.mem_reverse.mp hd)
  have hlt2 : ∀ d ∈ (Nat.digits 10 m).reverse, d < 10 := by
    intro d hd
    exact Nat.digits_lt_base (by norm_num) (List.mem_reverse.mp hd)
  have hrev : (Nat.digits 10 n).reverse = (Nat.digits 10 m).reverse := by
    rw [← hround _ hlt, ← hround _ hlt2, hmap]
  have hdig : Nat.digits 10 n = Nat.digits 10 m := List.reverse_injective hrev
  exact Nat.digits_inj_iff.mp hdig

end NatKey

namespace OrderService

theorem storeInv_init : StoreInv initState := by
  constructor
  · decide
  · intro p hp
    simp [initState] at hp

/-- Under the store invariant the next id is not a key of the store. -/
theorem storeInv_fresh {s : OrderState} (h : StoreInv s) :
    ∀ p ∈ s.orders_db, p.1 ≠ natKey s.order_id_counter := by
  intro p hp heq
  obtain ⟨hpos, hkeys⟩ := h
  obtain ⟨k, hk0, hklt, hkey⟩ := hkeys p hp
  have : k = s.order_id_counter := natKey_inj hk0 hpos (hkey ▸ heq)
  omega

/-- The store invariant is preserved by `delete_order`. -/
theorem storeInv_delete (oid : String) {s : OrderState} (h : StoreInv s) :
    StoreInv (delete_order oid s).2 := by
  unfold delete_order
  cases hl : s.orders_db.lookup oid with
  | none => exact h
  | some o =>
    refine ⟨h.1, ?_⟩
    intro p hp
    exact h.2 p (List.mem_of_mem_filter hp)

end OrderService

/-! ### Helper lemmas shared by the claim theorems -/

theorem lookup_outboundHeaders (cid : String) :
    (outboundHeaders cid).lookup "X-Correlation-ID" = some cid :=
  lookup_singleton_self _ _

theorem proxy_calls_eq (cid method : String) (outcome : Gateway.GCallOutcome) :
    ∀ h ∈ (Gateway.proxy_request cid method outcome).calls, h = outboundHeaders cid := by
  intro h hh
  unfold Gateway.proxy_request at hh
  by_cases hm : Gateway.methodSupported method
  · cases outcome with
    | ok r =>
      cases hr : r.jsonBody with
      | some v => simp [hm, hr] at hh; exact hh
      | none => simp [hm, hr] at hh; exact hh
    | timeout => simp [hm] at hh; exact hh
    | connError => simp [hm] at hh; exact hh
    | otherError msg => simp [hm] at hh; exact hh
  · simp [hm] at hh

theorem create_order_calls_eq (cid : String) (body : Option (List (String × JVal)))
    (userCall : OrderService.UserCallOutcome) (now : ℚ) (s : OrderService.OrderState) :
    ∀ h ∈ (OrderService.create_order cid body userCall now s).calls, h = outboundHeaders cid := by
  intro h hh
  unfold OrderService.create_order at hh
  repeat' split at hh
  all_goals simp_all

section CreateOrderReductions

variable (cid : String) (data : List (String × JVal)) (uid p qv : JVal) (q : Int)
variable (now : ℚ) (s : OrderService.OrderState)

theorem create_order_eq_badQuantity
    (hu : data.lookup "user_id" = some uid)
    (hp : data.lookup "product" = some p)
    (hq : data.lookup "quantity" = some qv)
    (hqi : pyInt qv = none) (userCall : OrderService.UserCallOutcome) :
    OrderService.create_order cid (some data) userCall now s =
      ⟨.error (OrderService.intConvErr qv), s, ["create_order"], []⟩ := by
  simp only [OrderService.create_order, hu, hp, hq, hqi]

theorem create_order_eq_netfail
    (hu : data.lookup "user_id" = some uid)
    (hp : data.lookup "product" = some p)
    (hq : data.lookup "quantity" = some qv)
    (hqi : pyInt qv = some q) (msg : String) :
    OrderService.create_order cid (some data) (.netFail msg) now s =
      ⟨.ok (.errMsg "Service unavailable", 503), s,
        ["create_order", "validate_user"], [outboundHeaders cid]⟩ := by
  simp only [OrderService.create_order, hu, hp, hq, hqi]

theorem create_order_eq_user404
    (hu : data.lookup "user_id" = some uid)
    (hp : data.lookup "product" = some p)
    (hq : data.lookup "quantity" = some qv)
    (hqi : pyInt qv = some q) :
    OrderService.create_order cid (some data) (.ok 404) now s =
      ⟨.ok (.errMsg "User not found", 404), s,
        ["create_order", "validate_user"], [outboundHeaders cid]⟩ := by
  simp only [OrderService.create_order, hu, hp, hq, hqi]
  simp

theorem create_order_eq_userOther (st : Nat)
    (hu : data.lookup "user_id" = some uid)
    (hp : data.lookup "product" = some p)
    (hq : data.lookup "quantity" = some qv)
    (hqi : pyInt qv = some q) (h404 : st ≠ 404) (h200 : st ≠ 200) :
    OrderService.create_order cid (some data) (.ok st) now s =
      ⟨.ok (.errMsg "Failed to validate user", 500), s,
        ["create_order", "validate_user"], [outboundHeaders cid]⟩ := by
  simp only [OrderService.create_order, hu, hp, hq, hqi]
  simp [h404, h200]

theorem create_order_eq_failProduct
    (hu : data.lookup "user_id" = some uid)
    (hp : data.lookup "product" = some (JVal.jstr "fail_product"))
    (hq : data.lookup "quantity" = some qv)
    (hqi : pyInt qv = some q) :
    OrderService.create_order cid (some data) (.ok 200) now s =
      ⟨.error (.valueError "Payment gateway timeout: Unable to reach provider"), s,
        ["create_order", "validate_user", "calculate_total"], [outboundHeaders cid]⟩ := by
  simp only [OrderService.create_order, hu, hp, hq, hqi]
  simp

theorem create_order_eq_success
    (hu : data.lookup "user_id" = some uid)
    (hp : data.lookup "product" = some p)
    (hq : data.lookup "quantity" = some qv)
    (hqi : pyInt qv = some q)
    (hnf : p ≠ JVal.jstr "fail_product") :
    OrderService.create_order cid (some data) (.ok 200) now s =
      ⟨.ok (.order ⟨natKey s.order_id_counter, uid, p, q,
          OrderService.price_per_item * (q : ℚ), "pending", now⟩, 201),
        ⟨s.order_id_counter + 1,
         s.orders_db ++ [(natKey s.order_id_counter,
           ⟨natKey s.order_id_counter, uid, p, q,
             OrderService.price_per_item * (q : ℚ), "pending", now⟩)],
         s.orders_created_products ++ [p],
         s.order_value + OrderService.price_per_item * (q : ℚ)⟩,
        ["create_order", "validate_user", "calculate_total", "save_order"],
        [outboundHeaders cid]⟩ := by
  simp only [OrderService.create_order, hu, hp, hq, hqi]
  simp [hnf]

end CreateOrderReductions

/-! ### Claim theorems -/

/-- C2: every outbound call the system makes — the proxy dispatch of
the gateway and the user-validation call of the order service — carries the
`X-Correlation-ID` header, and its value is exactly the correlation
identity derived from the inbound request, unchanged. -/
theorem outbound_calls_carry_correlation_id :
    (∀ (inbound : Headers) (freshId method : String) (outcome : Gateway.GCallOutcome),
      ∀ h ∈ (Gateway.proxy_request (get_correlation_id inbound freshId) method outcome).calls,
        h.lookup "X-Correlation-ID" = some (get_correlation_id inbound freshId)) ∧
    (∀ (inbound : Headers) (freshId : String) (body : Option (List (String × JVal)))
        (userCall : OrderService.UserCallOutcome) (now : ℚ) (s : OrderService.OrderState),
      ∀ h ∈ (OrderService.create_order (get_correlation_id inbound freshId) body userCall now s).calls,
        h.lookup "X-Correlation-ID" = some (get_correlation_id inbound freshId)) := by
  constructor
  · intro inbound freshId method outcome h hh
    rw [proxy_calls_eq _ _ _ h hh]
    exact lookup_outboundHeaders _
  · intro inbound freshId body userCall now s h hh
    rw [create_order_calls_eq _ _ _ _ _ h hh]
    exact lookup_outboundHeaders _

/-- Witness for C2: a concrete gateway dispatch and a concrete
user-validation call both carry the inbound correlation identity. -/
theorem outbound_calls_carry_correlation_id_witness :
    List.lookup "X-Correlation-ID" (outboundHeaders "abc") = some (get_correlation_id [("X-Correlation-ID", "abc")] "f-1") ∧
    List.lookup "X-Correlation-ID" (outboundHeaders "abc") = some (get_correlation_id [("X-Correlation-ID", "abc")] "f-2") := by
  constructor
  · exact outbound_calls_carry_correlation_id.1 [("X-Correlation-ID", "abc")] "f-1" "GET"
      (.timeout) (outboundHeaders "abc") (by decide)
  · exact outbound_calls_carry_correlation_id.2 [("X-Correlation-ID", "abc")] "f-2"
      (some [("user_id", .jstr "1"), ("product", .jstr "widget"), ("quantity", .jint 3)])
      (.ok 200) 0 OrderService.initState (outboundHeaders "abc") (by decide)

/-- C3 counterexample: with the header present but empty, the derived
correlation identity is the empty string — it is echoed verbatim, not
replaced by the freshly generated non-empty value as the claim states
for the empty-header case. -/
theorem empty_header_correlation_id_cex :
    get_correlation_id [("X-Correlation-ID", "")] "b7c2-fresh" = "" ∧
    ("" : String) ≠ "b7c2-fresh" := by
  exact ⟨rfl, by decide⟩

/-- C3 (amended): if the `X-Correlation-ID` header is present — even
with an empty value — the derived identity is exactly the header value
and the response carries it; if the header is absent, the identity is
the freshly generated value, the response carries it, it is non-empty
whenever the generator output is, and two requests without the header
whose generated values differ receive different identities. -/
theorem correlation_id_derivation_amended :
    (∀ (inbound : Headers) (freshId v : String) (resp : Headers),
      inbound.lookup "X-Correlation-ID" = some v →
      get_correlation_id inbound freshId = v ∧
      (after_request_headers (get_correlation_id inbound freshId) resp).lookup "X-Correlation-ID" = some v) ∧
    (∀ (inbound : Headers) (freshId : String) (resp : Headers),
      inbound.lookup "X-Correlation-ID" = none →
      get_correlation_id inbound freshId = freshId ∧
      (after_request_headers (get_correlation_id inbound freshId) resp).lookup "X-Correlation-ID" = some freshId ∧
      (freshId ≠ "" → get_correlation_id inbound freshId ≠ "")) ∧
    (∀ (i1 i2 : Headers) (f1 f2 : String),
      i1.lookup "X-Correlation-ID" = none → i2.lookup "X-Correlation-ID" = none →
      f1 ≠ f2 → get_correlation_id i1 f1 ≠ get_correlation_id i2 f2) := by
  refine ⟨?_, ?_, ?_⟩
  · intro inbound freshId v resp hv
    have hid : get_correlation_id inbound freshId = v := by
      simp [get_correlation_id, hv]
    refine ⟨hid, ?_⟩
    rw [hid]
    exact lookup_setRespHeader resp _ v
  · intro inbound freshId resp hv
    have hid : get_correlation_id inbound freshId = freshId := by
      simp [get_correlation_id, hv]
    refine ⟨hid, ?_, ?_⟩
    · rw [hid]; exact lookup_setRespHeader resp _ freshId
    · intro hne; rw [hid]; exact hne
  · intro i1 i2 f1 f2 h1 h2 hne
    have e1 : get_correlation_id i1 f1 = f1 := by simp [get_correlation_id, h1]
    have e2 : get_correlation_id i2 f2 = f2 := by simp [get_correlation_id, h2]
    rw [e1, e2]; exact hne

/-- Witness for the amended C3: concrete present-header echo, concrete
absent-header generation (with response propagation), and distinctness
of two concrete generated identities. -/
theorem correlation_id_derivation_amended_witness :
    (get_correlation_id [("X-Correlation-ID", "abc")] "f-1" = "abc" ∧
      (after_request_headers (get_correlation_id [("X-Correlation-ID", "abc")] "f-1") []).lookup "X-Correlation-ID" = some "abc") ∧
    (get_correlation_id [("Accept", "s")] "f-1" = "f-1" ∧
      (after_request_headers (get_correlation_id [("Accept", "s")] "f-1") []).lookup "X-Correlation-ID" = some "f-1") ∧
    get_correlation_id [] "f-1" ≠ get_correlation_id [] "f-2" := by
  refine ⟨correlation_id_derivation_amended.1 _ "f-1" "abc" [] (by decide), ?_, ?_⟩
  · have h := correlation_id_derivation_amended.2.1 [("Accept", "s")] "f-1" [] (by decide)
    exact ⟨h.1, h.2.1⟩
  · exact correlation_id_derivation_amended.2.2 [] [] "f-1" "f-2" rfl rfl (by decide)

/-- C5 counterexample: a backend that responds with status 200 but a
body `response.json()` cannot parse is not passed through — the proxy
returns the generic 500 result instead of the backend status and body. -/
theorem proxy_passthrough_cex :
    (Gateway.proxy_request "c-1" "GET" (.ok ⟨200, none⟩)).status ≠ 200 ∧
    Gateway.proxy_request "c-1" "GET" (.ok ⟨200, none⟩) =
      ⟨.errMsg "Internal server error", 500, [outboundHeaders "c-1"]⟩ := by
  exact ⟨by decide, by decide⟩

/-- C5 (amended): for every gateway proxy call with a supported method
where the backend responds and its body parses as JSON, the proxy
returns the backend status code and parsed body unchanged; a backend
response whose body fails JSON parsing instead yields the generic
500 "Internal server error" result. -/
theorem proxy_passthrough_amended (cid method : String) (st : Nat) (v : String)
    (hm : Gateway.methodSupported method = true) :
    Gateway.proxy_request cid method (.ok ⟨st, some v⟩) =
      ⟨.passthrough v, st, [outboundHeaders cid]⟩ ∧
    Gateway.proxy_request cid method (.ok ⟨st, none⟩) =
      ⟨.errMsg "Internal server error", 500, [outboundHeaders cid]⟩ := by
  constructor <;> simp [Gateway.proxy_request, hm]

/-- Witness for the amended C5: a concrete 404 JSON response passes
through unchanged; a concrete non-JSON 200 response yields 500. -/
theorem proxy_passthrough_amended_witness :
    Gateway.proxy_request "c-1" "GET" (.ok ⟨404, some "user-doc"⟩) =
      ⟨.passthrough "user-doc", 404, [outboundHeaders "c-1"]⟩ ∧
    Gateway.proxy_request "c-1" "GET" (.ok ⟨200, none⟩) =
      ⟨.errMsg "Internal server error", 500, [outboundHeaders "c-1"]⟩ := by
  exact ⟨(proxy_passthrough_amended "c-1" "GET" 404 "user-doc" (by decide)).1,
         (proxy_passthrough_amended "c-1" "GET" 200 "x" (by decide)).2⟩

/-- C8: the gateway proxy classifies every outcome of its single
outbound attempt — timeout gives the 504 "Service timeout" result,
an unreachable destination gives the 503 "Service unavailable" result,
any other failure during the call gives the generic 500 result (each
after exactly one outbound dispatch), and an unsupported method gives
the 405 "Method not supported" result with no outbound dispatch at
all. -/
theorem proxy_failure_classification (cid method : String)
    (hm : Gateway.methodSupported method = true) :
    Gateway.proxy_request cid method .timeout =
      ⟨.errMsg "Service timeout", 504, [outboundHeaders cid]⟩ ∧
    Gateway.proxy_request cid method .connError =
      ⟨.errMsg "Service unavailable", 503, [outboundHeaders cid]⟩ ∧
    (∀ msg, Gateway.proxy_request cid method (.otherError msg) =
      ⟨.errMsg "Internal server error", 500, [outboundHeaders cid]⟩) ∧
    (∀ (method2 : String) (outcome : Gateway.GCallOutcome),
      Gateway.methodSupported method2 = false →
      Gateway.proxy_request cid method2 outcome =
        ⟨.errMsg "Method not supported", 405, []⟩) := by
  refine ⟨?_, ?_, ?_, ?_⟩
  · simp [Gateway.proxy_request, hm]
  · simp [Gateway.proxy_request, hm]
  · intro msg; simp [Gateway.proxy_request, hm]
  · intro method2 outcome hm2; simp [Gateway.proxy_request, hm2]

/-- Witness for C8: the four classifications at concrete inputs
(method `GET`, and unsupported method `PATCH`). -/
theorem proxy_failure_classification_witness :
    Gateway.proxy_request "c-1" "GET" .timeout =
      ⟨.errMsg "Service timeout", 504, [outboundHeaders "c-1"]⟩ ∧
    Gateway.proxy_request "c-1" "GET" .connError =
      ⟨.errMsg "Service unavailable", 503, [outboundHeaders "c-1"]⟩ ∧
    Gateway.proxy_request "c-1" "GET" (.otherError "boom") =
      ⟨.errMsg "Internal server error", 500, [outboundHeaders "c-1"]⟩ ∧
    Gateway.proxy_request "c-1" "PATCH" .timeout =
      ⟨.errMsg "Method not supported", 405, []⟩ := by
  have h := proxy_failure_classification "c-1" "GET" (by decide)
  exact ⟨h.1, h.2.1, h.2.2.1 "boom", h.2.2.2 "PATCH" .timeout (by decide)⟩

/-- C9: for every request and every handler outcome — a normal response
or an exception routed through the global error handler — the
active-request gauge is incremented exactly once on entry, decremented
exactly once on exit, and ends at its pre-request value. -/
theorem active_gauge_balanced (g0 : Int) (h : HandlerOutcome) :
    (handle_request g0 h).gaugeAfter = g0 ∧
    (handle_request g0 h).incCount = 1 ∧
    (handle_request g0 h).decCount = 1 := by
  cases h <;> simp [handle_request]

/-- C1: when the body carries `user_id`, `product` (not the sentinel
failure product) and `quantity`, and the user service answers 200, the
order-creation operation returns 201 with an order whose total is
`99.99 * quantity`, whose status is "pending", and whose id is the
decimal rendering of the current counter — an id that is not a key of
the store and was never produced for any earlier counter value — and
that record is inserted into the store while the counter advances by
one, preserving the store invariant. -/
theorem create_order_success_fresh_order
    (cid : String) (data : List (String × JVal)) (uid p qv : JVal) (q : Int)
    (now : ℚ) (s : OrderService.OrderState)
    (hu : data.lookup "user_id" = some uid)
    (hp : data.lookup "product" = some p)
    (hq : data.lookup "quantity" = some qv)
    (hqi : pyInt qv = some q)
    (hnf : p ≠ JVal.jstr "fail_product")
    (hinv : OrderService.StoreInv s) :
    (OrderService.create_order cid (some data) (.ok 200) now s).result =
      .ok (.order ⟨natKey s.order_id_counter, uid, p, q, (99.99 : ℚ) * (q : ℚ), "pending", now⟩, 201) ∧
    s.orders_db.lookup (natKey s.order_id_counter) = none ∧
    (∀ k, 0 < k → k < s.order_id_counter → natKey s.order_id_counter ≠ natKey k) ∧
    (OrderService.create_order cid (some data) (.ok 200) now s).state.order_id_counter =
      s.order_id_counter + 1 ∧
    (OrderService.create_order cid (some data) (.ok 200) now s).state.orders_db.lookup
        (natKey s.order_id_counter) =
      some ⟨natKey s.order_id_counter, uid, p, q, (99.99 : ℚ) * (q : ℚ), "pending", now⟩ ∧
    OrderService.StoreInv (OrderService.create_order cid (some data) (.ok 200) now s).state := by
  have hco := create_order_eq_success cid data uid p qv q now s hu hp hq hqi hnf
  have hfresh : ∀ r ∈ s.orders_db, r.1 ≠ natKey s.order_id_counter :=
    OrderService.storeInv_fresh hinv
  have hnone : s.orders_db.lookup (natKey s.order_id_counter) = none :=
    lookup_eq_none_of_keys hfresh
  refine ⟨?_, hnone, ?_, ?_, ?_, ?_⟩
  · rw [hco]; rfl
  · intro k hk0 hklt heq
    have := natKey_inj hinv.1 hk0 heq
    omega
  · rw [hco]
  · rw [hco]
    show (s.orders_db ++ [(natKey s.order_id_counter, _)]).lookup (natKey s.order_id_counter) = _
    rw [lookup_append_of_none hnone, lookup_singleton_self]
    rfl
  · rw [hco]
    refine ⟨Nat.succ_pos s.order_id_counter, ?_⟩
    intro r hr
    rcases List.mem_append.mp hr with hold | hnew
    · obtain ⟨k, hk0, hklt, hkey⟩ := hinv.2 r hold
      exact ⟨k, hk0, Nat.lt_succ_of_lt hklt, hkey⟩
    · have hre : r = (natKey s.order_id_counter,
          ⟨natKey s.order_id_counter, uid, p, q,
            OrderService.price_per_item * (q : ℚ), "pending", now⟩) := by
        simpa using hnew
      exact ⟨s.order_id_counter, hinv.1, Nat.lt_succ_self _, by rw [hre]⟩

/-- Witness for C1: a concrete successful order creation from the
initial state stores the order under the fresh id "1" and advances the
counter to 2. -/
theorem create_order_success_fresh_order_witness :
    (OrderService.create_order "abc"
        (some [("user_id", .jstr "1"), ("product", .jstr "widget"), ("quantity", .jint 3)])
        (.ok 200) 0 OrderService.initState).result =
      .ok (.order ⟨"1", .jstr "1", .jstr "widget", 3, (99.99 : ℚ) * (3 : ℚ), "pending", 0⟩, 201) ∧
    OrderService.initState.orders_db.lookup "1" = none ∧
    (OrderService.create_order "abc"
        (some [("user_id", .jstr "1"), ("product", .jstr "widget"), ("quantity", .jint 3)])
        (.ok 200) 0 OrderService.initState).state.order_id_counter = 2 ∧
    (OrderService.create_order "abc"
        (some [("user_id", .jstr "1"), ("product", .jstr "widget"), ("quantity", .jint 3)])
        (.ok 200) 0 OrderService.initState).state.orders_db.lookup "1" =
      some ⟨"1", .jstr "1", .jstr "widget", 3, (99.99 : ℚ) * (3 : ℚ), "pending", 0⟩ := by
  have h := create_order_success_fresh_order "abc"
    [("user_id", .jstr "1"), ("product", .jstr "widget"), ("quantity", .jint 3)]
    (.jstr "1") (.jstr "widget") (.jint 3) 3 0 OrderService.initState
    (by decide) (by decide) (by decide) rfl (by decide) OrderService.storeInv_init
  exact ⟨h.1, h.2.1, h.2.2.2.1, h.2.2.2.2.1⟩

/-- C4: in the user-validation step, a user-service status of 404 gives
the terminal 404 "User not found" outcome; any other non-200 status
gives the terminal 500 "Failed to validate user" outcome; a
network-level failure of the call gives the terminal 503
"Service unavailable" outcome; and a 200 status proceeds to the next
step (the `calculate_total` span is entered). -/
theorem validate_user_classification
    (cid : String) (data : List (String × JVal)) (uid p qv : JVal) (q : Int)
    (now : ℚ) (s : OrderService.OrderState)
    (hu : data.lookup "user_id" = some uid)
    (hp : data.lookup "product" = some p)
    (hq : data.lookup "quantity" = some qv)
    (hqi : pyInt qv = some q) :
    (OrderService.create_order cid (some data) (.ok 404) now s).result =
      .ok (.errMsg "User not found", 404) ∧
    (∀ st : Nat, st ≠ 404 → st ≠ 200 →
      (OrderService.create_order cid (some data) (.ok st) now s).result =
        .ok (.errMsg "Failed to validate user", 500)) ∧
    (∀ msg, (OrderService.create_order cid (some data) (.netFail msg) now s).result =
      .ok (.errMsg "Service unavailable", 503)) ∧
    "calculate_total" ∈ (OrderService.create_order cid (some data) (.ok 200) now s).steps := by
  refine ⟨?_, ?_, ?_, ?_⟩
  · rw [create_order_eq_user404 cid data uid p qv q now s hu hp hq hqi]
  · intro st h404 h200
    rw [create_order_eq_userOther cid data uid p qv q now s st hu hp hq hqi h404 h200]
  · intro msg
    rw [create_order_eq_netfail cid data uid p qv q now s hu hp hq hqi msg]
  · by_cases hf : p = JVal.jstr "fail_product"
    · subst hf
      rw [create_order_eq_failProduct cid data uid qv q now s hu hp hq hqi]
      simp
    · rw [create_order_eq_success cid data uid p qv q now s hu hp hq hqi hf]
      simp

/-- Witness for C4: the three terminal classifications and the
proceed-on-200 behavior at a concrete request. -/
theorem validate_user_classification_witness :
    (OrderService.create_order "abc"
        (some [("user_id", .jstr "1"), ("product", .jstr "widget"), ("quantity", .jint 3)])
        (.ok 404) 0 OrderService.initState).result = .ok (.errMsg "User not found", 404) ∧
    (OrderService.create_order "abc"
        (some [("user_id", .jstr "1"), ("product", .jstr "widget"), ("quantity", .jint 3)])
        (.ok 500) 0 OrderService.initState).result = .ok (.errMsg "Failed to validate user", 500) ∧
    (OrderService.create_order "abc"
        (some [("user_id", .jstr "1"), ("product", .jstr "widget"), ("quantity", .jint 3)])
        (.netFail "conn refused") 0 OrderService.initState).result =
      .ok (.errMsg "Service unavailable", 503) ∧
    "calculate_total" ∈ (OrderService.create_order "abc"
        (some [("user_id", .jstr "1"), ("product", .jstr "widget"), ("quantity", .jint 3)])
        (.ok 200) 0 OrderService.initState).steps := by
  have h := validate_user_classification "abc"
    [("user_id", .jstr "1"), ("product", .jstr "widget"), ("quantity", .jint 3)]
    (.jstr "1") (.jstr "widget") (.jint 3) 3 0 OrderService.initState
    (by decide) (by decide) (by decide) rfl
  exact ⟨h.1, h.2.1 500 (by decide) (by decide), h.2.2.1 "conn refused", h.2.2.2⟩

/-- C6: with the sentinel product "fail_product" (fields present, user
validation succeeding), `create_order` raises the `ValueError` of the
failure-injection hook instead of returning; the module state — store
and counter — is untouched, and the global error handler turns the
exception into the generic 500 response while logging it as an
unhandled error at level `logging.ERROR`. -/
theorem fail_product_unhandled_error
    (cid : String) (data : List (String × JVal)) (uid qv : JVal) (q : Int)
    (now : ℚ) (s : OrderService.OrderState)
    (hu : data.lookup "user_id" = some uid)
    (hp : data.lookup "product" = some (JVal.jstr "fail_product"))
    (hq : data.lookup "quantity" = some qv)
    (hqi : pyInt qv = some q) :
    (OrderService.create_order cid (some data) (.ok 200) now s).result =
      .error (.valueError "Payment gateway timeout: Unable to reach provider") ∧
    (OrderService.create_order cid (some data) (.ok 200) now s).state = s ∧
    OrderService.handle_error (.valueError "Payment gateway timeout: Unable to reach provider") =
      ((.errMsg "Internal server error", 500),
       ⟨40, "Unhandled exception", "Payment gateway timeout: Unable to reach provider", "ValueError"⟩) := by
  have hco := create_order_eq_failProduct cid data uid qv q now s hu hp hq hqi
  exact ⟨by rw [hco], by rw [hco], rfl⟩

/-- Witness for C6: the concrete sentinel request from the initial
state raises, leaves the state untouched, and is mapped to 500 by the
global handler. -/
theorem fail_product_unhandled_error_witness :
    (OrderService.create_order "abc"
        (some [("user_id", .jstr "1"), ("product", .jstr "fail_product"), ("quantity", .jint 2)])
        (.ok 200) 0 OrderService.initState).result =
      .error (.valueError "Payment gateway timeout: Unable to reach provider") ∧
    (OrderService.create_order "abc"
        (some [("user_id", .jstr "1"), ("product", .jstr "fail_product"), ("quantity", .jint 2)])
        (.ok 200) 0 OrderService.initState).state = OrderService.initState ∧
    OrderService.handle_error (.valueError "Payment gateway timeout: Unable to reach provider") =
      ((.errMsg "Internal server error", 500),
       ⟨40, "Unhandled exception", "Payment gateway timeout: Unable to reach provider", "ValueError"⟩) :=
  fail_product_unhandled_error "abc"
    [("user_id", .jstr "1"), ("product", .jstr "fail_product"), ("quantity", .jint 2)]
    (.jstr "1") (.jint 2) 2 0 OrderService.initState
    (by decide) (by decide) (by decide) rfl

/-- C7: when the user service answers 404, order creation returns the
404 "User not found" outcome, the whole module state (store, counter,
business metrics) is unchanged, and no step after user validation runs:
the spans entered are exactly the root span and `validate_user`, with
neither `calculate_total` nor `save_order` among them. -/
theorem user_not_found_no_side_effects
    (cid : String) (data : List (String × JVal)) (uid p qv : JVal) (q : Int)
    (now : ℚ) (s : OrderService.OrderState)
    (hu : data.lookup "user_id" = some uid)
    (hp : data.lookup "product" = some p)
    (hq : data.lookup "quantity" = some qv)
    (hqi : pyInt qv = some q) :
    (OrderService.create_order cid (some data) (.ok 404) now s).result =
      .ok (.errMsg "User not found", 404) ∧
    (OrderService.create_order cid (some data) (.ok 404) now s).state = s ∧
    (OrderService.create_order cid (some data) (.ok 404) now s).steps =
      ["create_order", "validate_user"] ∧
    "calculate_total" ∉ (OrderService.create_order cid (some data) (.ok 404) now s).steps ∧
    "save_order" ∉ (OrderService.create_order cid (some data) (.ok 404) now s).steps := by
  have hco := create_order_eq_user404 cid data uid p qv q now s hu hp hq hqi
  refine ⟨by rw [hco], by rw [hco], by rw [hco], ?_, ?_⟩
  · rw [hco]
    show "calculate_total" ∉ (["create_order", "validate_user"] : List String)
    decide
  · rw [hco]
    show "save_order" ∉ (["create_order", "validate_user"] : List String)
    decide

/-- Witness for C7: the concrete not-found request leaves the initial
state unchanged and enters no span beyond `validate_user`. -/
theorem user_not_found_no_side_effects_witness :
    (OrderService.create_order "abc"
        (some [("user_id", .jstr "9"), ("product", .jstr "widget"), ("quantity", .jint 3)])
        (.ok 404) 0 OrderService.initState).result = .ok (.errMsg "User not found", 404) ∧
    (OrderService.create_order "abc"
        (some [("user_id", .jstr "9"), ("product", .jstr "widget"), ("quantity", .jint 3)])
        (.ok 404) 0 OrderService.initState).state = OrderService.initState ∧
    (OrderService.create_order "abc"
        (some [("user_id", .jstr "9"), ("product", .jstr "widget"), ("quantity", .jint 3)])
        (.ok 404) 0 OrderService.initState).steps = ["create_order", "validate_user"] := by
  have h := user_not_found_no_side_effects "abc"
    [("user_id", .jstr "9"), ("product", .jstr "widget"), ("quantity", .jint 3)]
    (.jstr "9") (.jstr "widget") (.jint 3) 3 0 OrderService.initState
    (by decide) (by decide) (by decide) rfl
  exact ⟨h.1, h.2.1, h.2.2.1⟩

/-- C10: a body whose `quantity` is the non-numeric string "abc" passes
the field-presence validation but `int()` raises before the
user-validation call, so `create_order` raises the conversion
`ValueError`, makes no outbound call, leaves the state untouched, and
the global handler turns this into the generic 500 response; whereas
the numeric string "3" is coerced to the integer 3. -/
theorem quantity_conversion_error
    (cid : String) (data : List (String × JVal)) (uid p : JVal)
    (userCall : OrderService.UserCallOutcome) (now : ℚ) (s : OrderService.OrderState)
    (hu : data.lookup "user_id" = some uid)
    (hp : data.lookup "product" = some p)
    (hq : data.lookup "quantity" = some (JVal.jstr "abc")) :
    (OrderService.create_order cid (some data) userCall now s).result =
      .error (.valueError "invalid literal for int() with base 10: \x27abc\x27") ∧
    (OrderService.create_order cid (some data) userCall now s).calls = [] ∧
    (OrderService.create_order cid (some data) userCall now s).state = s ∧
    (OrderService.handle_error
        (.valueError "invalid literal for int() with base 10: \x27abc\x27")).1 =
      (.errMsg "Internal server error", 500) ∧
    pyInt (.jstr "3") = some 3 := by
  have hco := create_order_eq_badQuantity cid data uid p (.jstr "abc") now s hu hp hq rfl userCall
  exact ⟨by rw [hco]; rfl, by rw [hco], by rw [hco], rfl, rfl⟩

/-- Witness for C10: the concrete request with quantity "abc" raises
the conversion error with no outbound call and no state change. -/
theorem quantity_conversion_error_witness :
    (OrderService.create_order "abc"
        (some [("user_id", .jstr "1"), ("product", .jstr "widget"), ("quantity", .jstr "abc")])
        (.ok 200) 0 OrderService.initState).result =
      .error (.valueError "invalid literal for int() with base 10: \x27abc\x27") ∧
    (OrderService.create_order "abc"
        (some [("user_id", .jstr "1"), ("product", .jstr "widget"), ("quantity", .jstr "abc")])
        (.ok 200) 0 OrderService.initState).calls = [] ∧
    (OrderService.create_order "abc"
        (some [("user_id", .jstr "1"), ("product", .jstr "widget"), ("quantity", .jstr "abc")])
        (.ok 200) 0 OrderService.initState).state = OrderService.initState ∧
    pyInt (.jstr "3") = some 3 := by
  have h := quantity_conversion_error "abc"
    [("user_id", .jstr "1"), ("product", .jstr "widget"), ("quantity", .jstr "abc")]
    (.jstr "1") (.jstr "widget") (.ok 200) 0 OrderService.initState
    (by decide) (by decide) (by decide)
  exact ⟨h.1, h.2.1, h.2.2.1, h.2.2.2.2⟩

end Observability
